import Mathlib

/-!
Shallow embedding of `scripts/config_manager.py`, the configuration management
system of this repository.  YAML documents are modelled as association lists
of string keys and dynamic values (`Value`), matching the Python dicts that
`yaml.safe_load` produces.  Python exceptions are modelled by the `PyErr`
type, with one constructor per raise site; fallible operations return
`Except PyErr _`.  The file-system and process environment are modelled as
functions from names to optional contents.
-/

/-- Dynamic values of a parsed YAML document, mirroring the Python objects
(`str`, `int`, `bool`, `None`, `list`, `dict`) that the config code touches. -/
inductive Value where
  | str (s : String)
  | int (n : Int)
  | bool (b : Bool)
  | null
  | list (xs : List Value)
  | map (entries : List (String × Value))

/-- Python exceptions raised by `config_manager.py`, one constructor per raise
site, carrying the structured data embedded in the message.  The spec's
abstract error kinds correspond as follows: `NotFoundError` is
`fileNotFoundError`/`keyError`, `MalformedDocumentError` is `valueErrorYaml`,
`SchemaError` is `valueErrorMissingSection` (missing mandatory section) and
the dataclass `typeError` (unknown stage field), and `MissingEnvironmentError`
is `valueErrorMissingEnv`. -/
inductive PyErr where
  | fileNotFoundError (path : String)
  | valueErrorYaml
  | valueErrorMissingSection (s : String)
  | valueErrorMissingEnv (params : List String)
  | keyError (k : String)
  | typeError (msg : String)
  | attributeError (name : String)
  deriving DecidableEq

/-- A parsed YAML mapping (a Python dict at the root of the document). -/
abbrev Doc := List (String × Value)

/-- The file system: maps a path to the parsed document stored there, `none`
when the file does not exist.  YAML serialization and parsing are treated as
inverse, so files hold documents directly. -/
abbrev FS := String → Option Doc

/-- The process environment, as read by `os.getenv`. -/
abbrev Env := String → Option String

/-- Python `d[k]`-style lookup for dicts: first binding of the key wins. -/
def dictLookup {α : Type} (d : List (String × α)) (k : String) : Option α :=
  match d with
  | [] => none
  | (k', v) :: rest => if k' = k then some v else dictLookup rest k

/-- Python `d[k] = v`: overwrite the existing binding in place, otherwise
append the new binding at the end, exactly as Python dicts preserve insertion
order. -/
def dictInsert {α : Type} (d : List (String × α)) (k : String) (v : α) : List (String × α) :=
  match d with
  | [] => [(k, v)]
  | (k', v') :: rest => if k' = k then (k, v) :: rest else (k', v') :: dictInsert rest k v

/-- Python `k in d` membership test on dict keys. -/
def dictMem (d : List (String × α)) (k : String) : Bool :=
  (dictLookup d k).isSome

/-- Python `d.get(k, default)` on a dict. -/
def pyGet {α : Type} (d : List (String × α)) (k : String) (default : α) : α :=
  (dictLookup d k).getD default

/-- Python `v.get(k, default)` on a dynamic value: raises `AttributeError`
when the receiver is not a dict. -/
def pyDictGet (v : Value) (k : String) (default : Value) : Except PyErr Value :=
  match v with
  | .map d => .ok (pyGet d k default)
  | _ => .error (.attributeError "get")

/-- Python `d[k]` on a dict, raising `KeyError` when the key is absent. -/
def pySubscript {α : Type} (d : List (String × α)) (k : String) : Except PyErr α :=
  match dictLookup d k with
  | some v => .ok v
  | none => .error (.keyError k)

/-- The four mandatory top-level sections checked by
`ConfigManager._validate_config` (source lines 59-65), in source order. -/
def requiredSections : List String :=
  ["database", "data_sources", "data_quality", "pipeline"]

/-- The `for section in required_sections` loop of `_validate_config`: raise
on the first missing section, in list order. -/
def validateSections (config : Doc) : List String → Except PyErr Unit
  | [] => .ok ()
  | s :: rest =>
    if dictMem config s then validateSections config rest
    else .error (.valueErrorMissingSection s)

/-- `ConfigManager._validate_config`. -/
def validate_config (config : Doc) : Except PyErr Unit :=
  validateSections config requiredSections

/-- Names of the logging levels of Python's `logging` module; `getattr`
succeeds on exactly these level names in `_setup_logging` (the module has
further attributes, but none that a level name in a config would hit and that
`basicConfig` would then accept). -/
def loggingLevelNames : List String :=
  ["CRITICAL", "FATAL", "ERROR", "WARNING", "WARN", "INFO", "DEBUG", "NOTSET"]

/-- `ConfigManager._setup_logging` (source lines 67-74): reads
`pipeline.logging.level` with default `"INFO"` and resolves it with
`getattr(logging, log_level)`, which raises `AttributeError` for an unknown
level name and `TypeError` for a non-string one. -/
def setup_logging (config : Doc) : Except PyErr Unit :=
  match pyDictGet (pyGet config "pipeline" (.map [])) "logging" (.map []) with
  | .error e => .error e
  | .ok loggingSection =>
    match pyDictGet loggingSection "level" (.str "INFO") with
    | .error e => .error e
    | .ok (.str levelName) =>
      if loggingLevelNames.contains levelName then .ok ()
      else .error (.attributeError levelName)
    | .ok _ => .error (.typeError "attribute name must be string")

/-- `ConfigManager._load_config`: open the file (raising `FileNotFoundError`
when absent), parse it, and validate the mandatory sections. -/
def load_config (fs : FS) (path : String) : Except PyErr Doc :=
  match fs path with
  | none => .error (.fileNotFoundError path)
  | some config =>
    match validate_config config with
    | .error e => .error e
    | .ok _ => .ok config

/-- The `ConfigManager` object after a successful `__init__`. -/
structure ConfigManager where
  config_path : String
  config : Doc

/-- `ConfigManager.__init__`: load and validate the document, then set up
logging. -/
def ConfigManager.construct (fs : FS) (path : String) : Except PyErr ConfigManager :=
  match load_config fs path with
  | .error e => .error e
  | .ok config =>
    match setup_logging config with
    | .error e => .error e
    | .ok _ => .ok { config_path := path, config := config }

/-- The `DatabaseConfig` dataclass.  Python does not enforce the annotated
field types, so the fields hold the raw document values. -/
structure DatabaseConfig where
  name : Value
  schemas : Value

/-- `ConfigManager.get_database_config`: `self.config['database']` followed by
keyword subscripts `['name']` and `['schemas']`. -/
def ConfigManager.get_database_config (self : ConfigManager) : Except PyErr DatabaseConfig :=
  match pySubscript self.config "database" with
  | .error e => .error e
  | .ok (.map db) =>
    match pySubscript db "name" with
    | .error e => .error e
    | .ok n =>
      match pySubscript db "schemas" with
      | .error e => .error e
      | .ok s => .ok { name := n, schemas := s }
  | .ok _ => .error (.typeError "value is not subscriptable")

/-- `ConfigManager.get_data_source_config` (source lines 84-89): look the
name up in `config.get('data_sources', {})`, raising `KeyError` when absent
and returning the stored attribute mapping unchanged otherwise. -/
def ConfigManager.get_data_source_config (self : ConfigManager) (source_name : String) :
    Except PyErr Value :=
  match pyGet self.config "data_sources" (.map []) with
  | .map dataSources =>
    match dictLookup dataSources source_name with
    | none => .error (.keyError source_name)
    | some v => .ok v
  | _ => .error (.typeError "argument of type is not a container")

/-- The `PipelineStage` dataclass: eight optional tuning knobs, each
defaulting to Python `None`. -/
structure PipelineStage where
  batch_size : Value := .null
  parallel_workers : Value := .null
  error_handling : Value := .null
  warehouse_size : Value := .null
  timeout_minutes : Value := .null
  auto_suspend_minutes : Value := .null
  export_formats : Value := .null
  compression : Value := .null

/-- The eight keyword parameters accepted by the `PipelineStage` dataclass
constructor. -/
def recognizedStageFields : List String :=
  ["batch_size", "parallel_workers", "error_handling", "warehouse_size",
   "timeout_minutes", "auto_suspend_minutes", "export_formats", "compression"]

/-- `PipelineStage(**stage_config)`: strict keyword construction raises
`TypeError` on the first keyword that is not a recognized field; otherwise
every given field is bound and the rest keep their `None` default. -/
def mkPipelineStage (stage_config : List (String × Value)) : Except PyErr PipelineStage :=
  match stage_config.find? (fun kv => ! recognizedStageFields.contains kv.1) with
  | some kv => .error (.typeError kv.1)
  | none => .ok
      { batch_size := pyGet stage_config "batch_size" .null,
        parallel_workers := pyGet stage_config "parallel_workers" .null,
        error_handling := pyGet stage_config "error_handling" .null,
        warehouse_size := pyGet stage_config "warehouse_size" .null,
        timeout_minutes := pyGet stage_config "timeout_minutes" .null,
        auto_suspend_minutes := pyGet stage_config "auto_suspend_minutes" .null,
        export_formats := pyGet stage_config "export_formats" .null,
        compression := pyGet stage_config "compression" .null }

/-- `ConfigManager.get_pipeline_stage_config` (source lines 109-118): find the
stage in `config.get('pipeline', {}).get('stages', {})`, raising `KeyError`
when absent, then build the `PipelineStage` dataclass from its record. -/
def ConfigManager.get_pipeline_stage_config (self : ConfigManager) (stage_name : String) :
    Except PyErr PipelineStage :=
  match pyDictGet (pyGet self.config "pipeline" (.map [])) "stages" (.map []) with
  | .error e => .error e
  | .ok (.map stages) =>
    match dictLookup stages stage_name with
    | none => .error (.keyError stage_name)
    | some (.map stage_config) => mkPipelineStage stage_config
    | some _ => .error (.typeError "argument after ** must be a mapping")
  | .ok _ => .error (.typeError "argument of type is not a container")

/-- Lower-casing as `str.lower` acts on the ASCII parameter names involved. -/
def pyLower (s : String) : String :=
  ⟨s.data.map Char.toLower⟩

/-- Fuel-indexed scanner behind `pyReplace`: replace each non-overlapping
occurrence of `pat` by `repl`, scanning left to right.  The fuel (the input
length) is enough for every non-empty pattern. -/
def replaceListAux (pat repl : List Char) : Nat → List Char → List Char
  | 0, s => s
  | fuel + 1, s =>
    match s with
    | [] => []
    | c :: rest =>
      if pat.isPrefixOf (c :: rest) then
        repl ++ replaceListAux pat repl fuel ((c :: rest).drop pat.length)
      else
        c :: replaceListAux pat repl fuel rest

/-- Python `s.replace(pat, repl)` for a non-empty pattern. -/
def pyReplace (s pat repl : String) : String :=
  ⟨replaceListAux pat.data repl.data s.data.length s.data⟩

/-- The key under which an environment variable lands in the connection
mapping: `param.lower().replace('snowflake_', '')` (source line 136). -/
def connKey (param : String) : String :=
  pyReplace (pyLower param) "snowflake_" ""

/-- The five required environment variables of
`get_snowflake_connection_params`, in source order. -/
def requiredParams : List String :=
  ["SNOWFLAKE_ACCOUNT", "SNOWFLAKE_USER", "SNOWFLAKE_PASSWORD",
   "SNOWFLAKE_WAREHOUSE", "SNOWFLAKE_ROLE"]

/-- Whether `os.getenv(param)` is falsy, i.e. the variable is unset or set to
the empty string; such a parameter is recorded as missing by the loop. -/
def paramMissing (env : Env) (param : String) : Bool :=
  match env param with
  | none => true
  | some v => v = ""

/-- One iteration of the `for param in required_params` loop (source lines
133-138): a truthy value is inserted under its lower-cased, prefix-stripped
key, otherwise the parameter is appended to the missing list. -/
def collectStep (env : Env) (acc : List (String × Value) × List String) (param : String) :
    List (String × Value) × List String :=
  match env param with
  | some v =>
    if v = "" then (acc.1, acc.2 ++ [param])
    else (dictInsert acc.1 (connKey param) (.str v), acc.2)
  | none => (acc.1, acc.2 ++ [param])

/-- The whole collection loop, started from empty `connection_params` and
`missing_params`. -/
def collectParams (env : Env) : List (String × Value) × List String :=
  requiredParams.foldl (collectStep env) ([], [])

/-- The parameters the loop reports missing: the required ones whose
environment value is falsy, in source order. -/
def missingParams (env : Env) : List String :=
  requiredParams.filter (paramMissing env)

/-- `ConfigManager.get_snowflake_connection_params` (source lines 120-147):
collect the five variables, fail with the full missing list when any is
falsy, otherwise merge in the database name under the `database` key. -/
def ConfigManager.get_snowflake_connection_params (self : ConfigManager) (env : Env) :
    Except PyErr (List (String × Value)) :=
  let acc := collectParams env
  if acc.2 ≠ [] then .error (.valueErrorMissingEnv acc.2)
  else
    match self.get_database_config with
    | .error e => .error e
    | .ok db => .ok (dictInsert acc.1 "database" db.name)

/-- The first statement of `update_config`: `if section not in self.config:
self.config[section] = {}`. -/
def ensureSection (config : Doc) (sec : String) : Doc :=
  if dictMem config sec then config else dictInsert config sec (.map [])

/-- `ConfigManager.update_config` (source lines 157-169): create the section
as an empty dict when absent, set `config[section][key] = value` (a
`TypeError` when the section value does not support item assignment), and
persist the whole document to the original path via `_save_config`. -/
def ConfigManager.update_config (self : ConfigManager) (fs : FS) (sec key : String)
    (value : Value) : Except PyErr (ConfigManager × FS) :=
  match dictLookup (ensureSection self.config sec) sec with
  | some (.map d) =>
    let config1 := dictInsert (ensureSection self.config sec) sec (.map (dictInsert d key value))
    .ok ({ self with config := config1 },
         fun p => if p = self.config_path then some config1 else fs p)
  | some _ => .error (.typeError "object does not support item assignment")
  | none => .error (.keyError sec)

/-- The `DataQualityRule` dataclass, at the field types of the data model
(rule records outside these types are not the subject of any claim). -/
structure DataQualityRule where
  name : String
  type : String
  threshold : ℚ
  critical : Bool
  rules : Option (List (String × List ℚ)) := none
  deriving DecidableEq

/-- `ConfigManager.get_data_quality_rules` (source lines 91-107): map each
stored rule record field-by-field into a `DataQualityRule`. -/
def get_data_quality_rules (rules_config : List DataQualityRule) : List DataQualityRule :=
  rules_config.map (fun rule_config =>
    { name := rule_config.name,
      type := rule_config.type,
      threshold := rule_config.threshold,
      critical := rule_config.critical,
      rules := rule_config.rules })

/-- The `is_valid` computation of `validate_data_quality_thresholds` (source
lines 176-184): completeness and uniqueness thresholds must lie in `[0, 100]`,
timeliness thresholds must be non-negative, every other type is valid. -/
def ruleIsValid (rule : DataQualityRule) : Bool :=
  if rule.type = "completeness" ∧ ¬(0 ≤ rule.threshold ∧ rule.threshold ≤ 100) then false
  else if rule.type = "uniqueness" ∧ ¬(0 ≤ rule.threshold ∧ rule.threshold ≤ 100) then false
  else if rule.type = "timeliness" ∧ rule.threshold < 0 then false
  else true

/-- `ConfigManager.validate_data_quality_thresholds` (source lines 171-191):
fold the rules into the `validation_results` dict, `results[rule.name] =
is_valid`, later rules overwriting earlier bindings of the same name. -/
def validate_data_quality_thresholds (rules_config : List DataQualityRule) :
    List (String × Bool) :=
  (get_data_quality_rules rules_config).foldl
    (fun validation_results rule =>
      dictInsert validation_results rule.name (ruleIsValid rule)) []

/-- The last rule carrying a given name, in document order; the spec's
reference point for duplicate handling. -/
def lastRuleNamed (rules : List DataQualityRule) (name : String) : Option DataQualityRule :=
  rules.reverse.find? (fun rule => rule.name = name)

/-- First mandatory section missing from a document, in the fixed order of
`required_sections`; the spec-side reference for the amended C1. -/
def firstMissingSection (config : Doc) : Option String :=
  requiredSections.find? (fun s => ! dictMem config s)

/-- The document written by `create_default_config` (source lines 205-248). -/
def defaultConfigDoc : Doc :=
  [("database", .map
      [("name", .str "TASTY_BYTES"),
       ("schemas", .map
          [("raw", .str "RAW_DATA"),
           ("harmonized", .str "HARMONIZED"),
           ("analytics", .str "ANALYTICS")])]),
   ("data_sources", .map
      [("weather_data", .map
          [("table", .str "weather_hamburg"),
           ("schema", .str "harmonized"),
           ("refresh_frequency", .str "daily"),
           ("retention_days", .int 365)])]),
   ("data_quality", .map
      [("validation_rules", .list
          [.map
            [("name", .str "null_check"),
             ("type", .str "completeness"),
             ("threshold", .int 95),
             ("critical", .bool true)]])]),
   ("pipeline", .map
      [("stages", .map
          [("ingestion", .map
              [("batch_size", .int 10000),
               ("parallel_workers", .int 4)])]),
       ("logging", .map [("level", .str "INFO")])])]

/-- A document missing two of the four mandatory sections (`data_sources`
and `pipeline`), for the C1 counterexample. -/
def docMissingTwo : Doc :=
  [("database", .map []), ("data_quality", .map [])]

/-- A document with all four mandatory sections whose
`pipeline.logging.level` is not a level of the `logging` module. -/
def docBadLevel : Doc :=
  [("database", .map [("name", .str "TASTY_BYTES"), ("schemas", .map [])]),
   ("data_sources", .map []),
   ("data_quality", .map []),
   ("pipeline", .map [("logging", .map [("level", .str "VERBOSE")])])]

/-- Two well-formed rules with distinct names, used to instantiate the
threshold-validation theorems. -/
def sampleRules : List DataQualityRule :=
  [{ name := "null_check", type := "completeness", threshold := 95, critical := true },
   { name := "freshness_check", type := "timeliness", threshold := 24, critical := false }]

/-- Two rules sharing one name, the first invalid and the last valid, used to
instantiate the duplicate-handling theorem. -/
def dupRules : List DataQualityRule :=
  [{ name := "check", type := "completeness", threshold := 150, critical := true },
   { name := "check", type := "timeliness", threshold := 24, critical := false }]

/-- The `pipeline` section of `defaultConfigDoc`. -/
def defaultPipelineSection : List (String × Value) :=
  [("stages", .map
      [("ingestion", .map
          [("batch_size", .int 10000), ("parallel_workers", .int 4)])]),
   ("logging", .map [("level", .str "INFO")])]

/-- The `data_sources` section of `defaultConfigDoc`. -/
def defaultDataSourcesSection : List (String × Value) :=
  [("weather_data", .map
      [("table", .str "weather_hamburg"),
       ("schema", .str "harmonized"),
       ("refresh_frequency", .str "daily"),
       ("retention_days", .int 365)])]

/-- A document whose `ingestion` stage record carries a field outside the
`PipelineStage` field set. -/
def docStageExtra : Doc :=
  [("database", .map []), ("data_sources", .map []), ("data_quality", .map []),
   ("pipeline", .map
      [("stages", .map
          [("ingestion", .map
              [("batch_size", .int 10000), ("foo", .int 1)])])])]

/-- The `pipeline` section of `docStageExtra`. -/
def stageExtraPipelineSection : List (String × Value) :=
  [("stages", .map
      [("ingestion", .map [("batch_size", .int 10000), ("foo", .int 1)])])]

/-- The stage record of `docStageExtra` with the unknown `foo` field. -/
def stageExtraRecord : List (String × Value) :=
  [("batch_size", .int 10000), ("foo", .int 1)]

/-! Helper lemmas about the dict operations. -/

theorem dictLookup_dictInsert_self {α : Type} (d : List (String × α)) (k : String) (v : α) :
    dictLookup (dictInsert d k v) k = some v := by
  induction d with
  | nil => simp [dictInsert, dictLookup]
  | cons kv rest ih =>
    obtain ⟨k', v'⟩ := kv
    by_cases h : k' = k
    · simp [dictInsert, dictLookup, h]
    · simp [dictInsert, dictLookup, h, ih]

theorem dictLookup_dictInsert_ne {α : Type} (d : List (String × α)) (k a : String) (v : α)
    (h : a ≠ k) : dictLookup (dictInsert d k v) a = dictLookup d a := by
  induction d with
  | nil => simp [dictInsert, dictLookup, Ne.symm h]
  | cons kv rest ih =>
    obtain ⟨k', v'⟩ := kv
    by_cases hk : k' = k
    · subst hk
      simp [dictInsert, dictLookup, Ne.symm h]
    · by_cases ha : k' = a
      · subst ha
        simp [dictInsert, dictLookup, hk]
      · simp [dictInsert, dictLookup, hk, ha, ih]

theorem mem_keys_dictInsert {α : Type} (d : List (String × α)) (k a : String) (v : α) :
    a ∈ (dictInsert d k v).map Prod.fst ↔ a ∈ d.map Prod.fst ∨ a = k := by
  induction d with
  | nil => simp [dictInsert]
  | cons kv rest ih =>
    obtain ⟨k', v'⟩ := kv
    by_cases h : k' = k
    · subst h
      simp [dictInsert]
      tauto
    · simp [dictInsert, h, ih]
      tauto

theorem nodup_keys_dictInsert {α : Type} (d : List (String × α)) (k : String) (v : α)
    (h : (d.map Prod.fst).Nodup) : ((dictInsert d k v).map Prod.fst).Nodup := by
  induction d with
  | nil => simp [dictInsert]
  | cons kv rest ih =>
    obtain ⟨k', v'⟩ := kv
    simp only [List.map_cons, List.nodup_cons] at h
    by_cases hk : k' = k
    · subst hk
      simpa [dictInsert, List.nodup_cons] using h
    · have hrest := ih h.2
      simp only [dictInsert, hk, if_false, List.map_cons, List.nodup_cons]
      refine ⟨?_, hrest⟩
      rw [mem_keys_dictInsert]
      push_neg
      exact ⟨h.1, hk⟩

theorem dictMem_iff_lookup {α : Type} (d : List (String × α)) (k : String) :
    dictMem d k = true ↔ ∃ v, dictLookup d k = some v := by
  cases h : dictLookup d k <;> simp [dictMem, h]

theorem dictMem_false_iff_lookup {α : Type} (d : List (String × α)) (k : String) :
    dictMem d k = false ↔ dictLookup d k = none := by
  cases h : dictLookup d k <;> simp [dictMem, h]

/-! Helper lemmas about the data-quality validation fold. -/

theorem get_data_quality_rules_eq (rules_config : List DataQualityRule) :
    get_data_quality_rules rules_config = rules_config := by
  induction rules_config with
  | nil => rfl
  | cons r rs ih => simp [get_data_quality_rules] at ih ⊢

theorem thresholds_foldl_lookup (rules : List DataQualityRule) (acc : List (String × Bool))
    (name : String) :
    dictLookup
      (rules.foldl (fun validation_results rule =>
        dictInsert validation_results rule.name (ruleIsValid rule)) acc) name =
      match rules.reverse.find? (fun rule => rule.name = name) with
      | some rule => some (ruleIsValid rule)
      | none => dictLookup acc name := by
  induction rules generalizing acc with
  | nil => simp
  | cons r rs ih =>
    simp only [List.foldl_cons, List.reverse_cons, List.find?_append]
    rw [ih]
    cases hfind : rs.reverse.find? (fun rule => rule.name = name) with
    | some rule => simp [hfind]
    | none =>
      by_cases hname : r.name = name
      · subst hname
        simp [hfind, List.find?, dictLookup_dictInsert_self]
      · simp [hfind, List.find?, hname, dictLookup_dictInsert_ne _ _ _ _ (fun hh => hname hh.symm)]

theorem thresholds_foldl_mem_keys (rules : List DataQualityRule) (acc : List (String × Bool))
    (name : String) :
    name ∈ (rules.foldl (fun validation_results rule =>
        dictInsert validation_results rule.name (ruleIsValid rule)) acc).map Prod.fst ↔
      name ∈ acc.map Prod.fst ∨ name ∈ rules.map DataQualityRule.name := by
  induction rules generalizing acc with
  | nil => simp
  | cons r rs ih =>
    simp only [List.foldl_cons, List.map_cons, List.mem_cons]
    rw [ih, mem_keys_dictInsert]
    tauto

theorem thresholds_foldl_nodup_keys (rules : List DataQualityRule) (acc : List (String × Bool))
    (h : (acc.map Prod.fst).Nodup) :
    ((rules.foldl (fun validation_results rule =>
        dictInsert validation_results rule.name (ruleIsValid rule)) acc).map Prod.fst).Nodup := by
  induction rules generalizing acc with
  | nil => simpa using h
  | cons r rs ih =>
    simp only [List.foldl_cons]
    exact ih _ (nodup_keys_dictInsert _ _ _ h)

theorem find?_name_of_nodup (rules : List DataQualityRule) (r : DataQualityRule)
    (h : (rules.map DataQualityRule.name).Nodup) (hr : r ∈ rules) :
    rules.find? (fun q => q.name = r.name) = some r := by
  induction rules with
  | nil => cases hr
  | cons x xs ih =>
    simp only [List.map_cons, List.nodup_cons] at h
    rcases List.mem_cons.mp hr with heq | hmem
    · subst heq
      simp [List.find?]
    · by_cases hx : x.name = r.name
      · exact absurd (hx ▸ List.mem_map_of_mem DataQualityRule.name hmem) h.1
      · simp [List.find?, hx, ih h.2 hmem]

/-! Helper lemmas about the connection-parameter collection loop. -/

theorem collect_foldl_snd (env : Env) (ps : List String)
    (acc : List (String × Value) × List String) :
    (ps.foldl (collectStep env) acc).2 = acc.2 ++ ps.filter (paramMissing env) := by
  induction ps generalizing acc with
  | nil => simp
  | cons p ps ih =>
    simp only [List.foldl_cons]
    rw [ih]
    rcases hp : env p with _ | v
    · simp [collectStep, paramMissing, hp]
    · by_cases hv : v = ""
      · simp [collectStep, paramMissing, hp, hv]
      · simp [collectStep, paramMissing, hp, hv]

theorem collect_foldl_mem_keys (env : Env) (ps : List String)
    (acc : List (String × Value) × List String) (a : String) :
    a ∈ (ps.foldl (collectStep env) acc).1.map Prod.fst ↔
      a ∈ acc.1.map Prod.fst ∨
        ∃ p ∈ ps, paramMissing env p = false ∧ connKey p = a := by
  induction ps generalizing acc with
  | nil => simp
  | cons p ps ih =>
    simp only [List.foldl_cons, List.mem_cons]
    rw [ih]
    rcases hp : env p with _ | v
    · simp only [collectStep, hp]
      constructor
      · rintro (h | ⟨q, hq, hmq, hkq⟩)
        · exact Or.inl h
        · exact Or.inr ⟨q, Or.inr hq, hmq, hkq⟩
      · rintro (h | ⟨q, (rfl | hq), hmq, hkq⟩)
        · exact Or.inl h
        · simp [paramMissing, hp] at hmq
        · exact Or.inr ⟨q, hq, hmq, hkq⟩
    · by_cases hv : v = ""
      · subst hv
        simp only [collectStep, hp, if_pos rfl]
        constructor
        · rintro (h | ⟨q, hq, hmq, hkq⟩)
          · exact Or.inl h
          · exact Or.inr ⟨q, Or.inr hq, hmq, hkq⟩
        · rintro (h | ⟨q, (rfl | hq), hmq, hkq⟩)
          · exact Or.inl h
          · simp [paramMissing, hp] at hmq
          · exact Or.inr ⟨q, hq, hmq, hkq⟩
      · simp only [collectStep, hp, if_neg hv]
        rw [mem_keys_dictInsert]
        have hpm : paramMissing env p = false := by simp [paramMissing, hp, hv]
        constructor
        · rintro ((h | rfl) | ⟨q, hq, hmq, hkq⟩)
          · exact Or.inl h
          · exact Or.inr ⟨p, Or.inl rfl, hpm, rfl⟩
          · exact Or.inr ⟨q, Or.inr hq, hmq, hkq⟩
        · rintro (h | ⟨q, (rfl | hq), hmq, hkq⟩)
          · exact Or.inl (Or.inl h)
          · exact Or.inl (Or.inr hkq.symm)
          · exact Or.inr ⟨q, hq, hmq, hkq⟩

theorem collectParams_snd (env : Env) : (collectParams env).2 = missingParams env := by
  simpa [collectParams, missingParams] using collect_foldl_snd env requiredParams ([], [])

theorem connection_params_error_of_missing (self : ConfigManager) (env : Env)
    (h : missingParams env ≠ []) :
    self.get_snowflake_connection_params env =
      .error (.valueErrorMissingEnv (missingParams env)) := by
  rw [ConfigManager.get_snowflake_connection_params]
  simp only [collectParams_snd]
  simp [h]

theorem connKey_account : connKey "SNOWFLAKE_ACCOUNT" = "account" := by decide
theorem connKey_user : connKey "SNOWFLAKE_USER" = "user" := by decide
theorem connKey_password : connKey "SNOWFLAKE_PASSWORD" = "password" := by decide
theorem connKey_warehouse : connKey "SNOWFLAKE_WAREHOUSE" = "warehouse" := by decide
theorem connKey_role : connKey "SNOWFLAKE_ROLE" = "role" := by decide

theorem connKey_inj_on_required (p q : String) (hp : p ∈ requiredParams)
    (hq : q ∈ requiredParams) (h : connKey p = connKey q) : p = q := by
  fin_cases hp <;> fin_cases hq <;> first | rfl | (exfalso; revert h; decide)

theorem construct_ok_config (fs : FS) (path : String) (self : ConfigManager)
    (h : ConfigManager.construct fs path = .ok self) :
    ∃ config, fs path = some config ∧ self.config = config ∧ self.config_path = path := by
  rw [ConfigManager.construct, load_config] at h
  rcases hfs : fs path with _ | config
  · simp only [hfs] at h
    exact Except.noConfusion h
  · simp only [hfs] at h
    refine ⟨config, rfl, ?_⟩
    rcases hval : validate_config config with e | u
    · simp only [hval] at h
      exact Except.noConfusion h
    · simp only [hval] at h
      rcases hlog : setup_logging config with e | u
      · simp only [hlog] at h
        exact Except.noConfusion h
      · simp only [hlog] at h
        injection h with h2
        subst h2
        exact ⟨rfl, rfl⟩

theorem ruleIsValid_completeness (rule : DataQualityRule) (h : rule.type = "completeness") :
    ruleIsValid rule = true ↔ (0 ≤ rule.threshold ∧ rule.threshold ≤ 100) := by
  by_cases hr : 0 ≤ rule.threshold ∧ rule.threshold ≤ 100 <;> simp [ruleIsValid, h, hr]

theorem ruleIsValid_uniqueness (rule : DataQualityRule) (h : rule.type = "uniqueness") :
    ruleIsValid rule = true ↔ (0 ≤ rule.threshold ∧ rule.threshold ≤ 100) := by
  by_cases hr : 0 ≤ rule.threshold ∧ rule.threshold ≤ 100 <;> simp [ruleIsValid, h, hr]

theorem ruleIsValid_timeliness (rule : DataQualityRule) (h : rule.type = "timeliness") :
    ruleIsValid rule = true ↔ 0 ≤ rule.threshold := by
  by_cases hr : rule.threshold < 0
  · simp [ruleIsValid, h, hr, not_le.mpr hr]
  · simp [ruleIsValid, h, hr, not_lt.mp hr]

theorem validate_thresholds_lookup_eq (rules_config : List DataQualityRule)
    (rule : DataQualityRule) (hnodup : (rules_config.map DataQualityRule.name).Nodup)
    (hr : rule ∈ rules_config) :
    dictLookup (validate_data_quality_thresholds rules_config) rule.name =
      some (ruleIsValid rule) := by
  rw [validate_data_quality_thresholds, get_data_quality_rules_eq, thresholds_foldl_lookup]
  have hrev : (rules_config.reverse.map DataQualityRule.name).Nodup := by
    rw [List.map_reverse]
    exact List.nodup_reverse.mpr hnodup
  rw [find?_name_of_nodup rules_config.reverse rule hrev (List.mem_reverse.mpr hr)]

/-! Claim theorems. -/

/-- C1 counterexample: the claim as stated is false on the code at concrete
inputs.  First, `docMissingTwo` lacks both `data_sources` and `pipeline`, yet
the raised error names only `data_sources`, not the full set of missing
sections.  Second, `docBadLevel` contains all four mandatory keys, yet
construction does not succeed: it fails in logging setup on the invalid level
name. -/
theorem validate_config_names_only_first :
    validate_config docMissingTwo = .error (.valueErrorMissingSection "data_sources") ∧
    dictMem docMissingTwo "pipeline" = false ∧
    "pipeline" ∈ requiredSections ∧
    ("pipeline" : String) ≠ "data_sources" ∧
    (∀ s ∈ requiredSections, dictMem docBadLevel s = true) ∧
    ConfigManager.construct (fun _ => some docBadLevel) "config.yaml" =
      .error (.attributeError "VERBOSE") :=
  ⟨rfl, rfl, by decide, by decide, by decide, rfl⟩

/-- C1 (amended): validation succeeds exactly when all four mandatory
sections are present; otherwise it fails with the schema error naming the
first missing section in the fixed order `database`, `data_sources`,
`data_quality`, `pipeline`, and construction from a file holding the document
surfaces that same error (construction may additionally fail in logging
setup even when all four sections are present). -/
theorem validate_config_spec (config : Doc) (path : String) :
    (validate_config config = .ok () ↔ ∀ s ∈ requiredSections, dictMem config s = true) ∧
    (∀ s, firstMissingSection config = some s →
      dictMem config s = false ∧ s ∈ requiredSections ∧
      validate_config config = .error (.valueErrorMissingSection s) ∧
      ConfigManager.construct (fun _ => some config) path =
        .error (.valueErrorMissingSection s)) := by
  cases h1 : dictMem config "database" <;> cases h2 : dictMem config "data_sources" <;>
    cases h3 : dictMem config "data_quality" <;> cases h4 : dictMem config "pipeline" <;>
    constructor <;>
    simp [validate_config, validateSections, requiredSections, firstMissingSection,
      ConfigManager.construct, load_config, List.find?, h1, h2, h3, h4]

/-- C1 witness: the amended theorem applied to `docMissingTwo`, whose first
missing section is `data_sources`. -/
theorem validate_config_spec_witness :
    firstMissingSection docMissingTwo = some "data_sources" ∧
    (dictMem docMissingTwo "data_sources" = false ∧
      "data_sources" ∈ requiredSections ∧
      validate_config docMissingTwo = .error (.valueErrorMissingSection "data_sources") ∧
      ConfigManager.construct (fun _ => some docMissingTwo) "config.yaml" =
        .error (.valueErrorMissingSection "data_sources")) :=
  ⟨rfl, (validate_config_spec docMissingTwo "config.yaml").2 "data_sources" rfl⟩

/-- C7: the code contradicts the claim.  `docBadLevel` loads and validates
(all four sections present), but `_setup_logging` resolves the invalid level
name `VERBOSE` with `getattr(logging, ...)`, which raises `AttributeError`,
so construction fails instead of falling back to the default level. -/
theorem construct_fails_on_invalid_level :
    (∀ s ∈ requiredSections, dictMem docBadLevel s = true) ∧
    validate_config docBadLevel = .ok () ∧
    setup_logging docBadLevel = .error (.attributeError "VERBOSE") ∧
    ConfigManager.construct (fun _ => some docBadLevel) "config.yaml" =
      .error (.attributeError "VERBOSE") :=
  ⟨by decide, rfl, rfl, rfl⟩

/-- C2: `validate_data_quality_thresholds` is total on loaded rule sets (it
is a plain function, never an error), its result has an entry for every rule,
and, when rule names are distinct so that each rule owns its entry (duplicate
names are the subject of C9), a completeness or uniqueness rule maps to
`true` exactly when `0 ≤ threshold ≤ 100` and a timeliness rule maps to
`true` exactly when `threshold ≥ 0`. -/
theorem validate_thresholds_spec (rules_config : List DataQualityRule)
    (hnodup : (rules_config.map DataQualityRule.name).Nodup) :
    (∀ rule ∈ rules_config,
        rule.name ∈ (validate_data_quality_thresholds rules_config).map Prod.fst) ∧
    (∀ rule ∈ rules_config,
      ((rule.type = "completeness" ∨ rule.type = "uniqueness") →
        (dictLookup (validate_data_quality_thresholds rules_config) rule.name = some true ↔
          (0 ≤ rule.threshold ∧ rule.threshold ≤ 100))) ∧
      (rule.type = "timeliness" →
        (dictLookup (validate_data_quality_thresholds rules_config) rule.name = some true ↔
          0 ≤ rule.threshold))) := by
  constructor
  · intro rule hr
    rw [validate_data_quality_thresholds, get_data_quality_rules_eq, thresholds_foldl_mem_keys]
    exact Or.inr (List.mem_map_of_mem DataQualityRule.name hr)
  · intro rule hr
    have hl := validate_thresholds_lookup_eq rules_config rule hnodup hr
    constructor
    · intro htype
      rw [hl]
      simp only [Option.some.injEq]
      rcases htype with h | h
      · exact ruleIsValid_completeness rule h
      · exact ruleIsValid_uniqueness rule h
    · intro htype
      rw [hl]
      simp only [Option.some.injEq]
      exact ruleIsValid_timeliness rule htype

/-- C2 witness: the theorem applied to the two `sampleRules`, whose names are
distinct. -/
theorem validate_thresholds_spec_witness :
    (sampleRules.map DataQualityRule.name).Nodup ∧
    ((∀ rule ∈ sampleRules,
        rule.name ∈ (validate_data_quality_thresholds sampleRules).map Prod.fst) ∧
     (∀ rule ∈ sampleRules,
       ((rule.type = "completeness" ∨ rule.type = "uniqueness") →
         (dictLookup (validate_data_quality_thresholds sampleRules) rule.name = some true ↔
           (0 ≤ rule.threshold ∧ rule.threshold ≤ 100))) ∧
       (rule.type = "timeliness" →
         (dictLookup (validate_data_quality_thresholds sampleRules) rule.name = some true ↔
           0 ≤ rule.threshold)))) :=
  ⟨by decide, validate_thresholds_spec sampleRules (by decide)⟩

/-- C9: when a name occurs among the rules, the result mapping carries
exactly one entry for it, and that entry holds the validity of the last rule
with that name in document order. -/
theorem validate_thresholds_duplicates (rules_config : List DataQualityRule) (name : String)
    (h : name ∈ rules_config.map DataQualityRule.name) :
    ((validate_data_quality_thresholds rules_config).map Prod.fst).count name = 1 ∧
    dictLookup (validate_data_quality_thresholds rules_config) name =
      (lastRuleNamed rules_config name).map ruleIsValid := by
  constructor
  · have hmem : name ∈ (validate_data_quality_thresholds rules_config).map Prod.fst := by
      rw [validate_data_quality_thresholds, get_data_quality_rules_eq, thresholds_foldl_mem_keys]
      exact Or.inr h
    have hnd : ((validate_data_quality_thresholds rules_config).map Prod.fst).Nodup := by
      rw [validate_data_quality_thresholds, get_data_quality_rules_eq]
      exact thresholds_foldl_nodup_keys rules_config [] (by simp)
    exact List.count_eq_one_of_mem hnd hmem
  · rw [validate_data_quality_thresholds, get_data_quality_rules_eq, thresholds_foldl_lookup,
      lastRuleNamed]
    cases hfind : rules_config.reverse.find? (fun rule => rule.name = name) with
    | some rule => simp
    | none =>
      simp only [Option.map_none]
      rfl

/-- C9 witness: the theorem applied to `dupRules`, two rules named `check`;
the result keeps one entry whose value is the validity of the later
timeliness rule. -/
theorem validate_thresholds_duplicates_witness :
    ("check" ∈ dupRules.map DataQualityRule.name) ∧
    (((validate_data_quality_thresholds dupRules).map Prod.fst).count "check" = 1 ∧
      dictLookup (validate_data_quality_thresholds dupRules) "check" =
        (lastRuleNamed dupRules "check").map ruleIsValid) ∧
    dictLookup (validate_data_quality_thresholds dupRules) "check" = some true :=
  ⟨by decide, validate_thresholds_duplicates dupRules "check" (by decide), by decide⟩

/-- C3: whenever at least one required connection variable is missing (unset
or empty), `get_snowflake_connection_params` fails with the error listing the
full set of missing variable names, in source order — not only the first
one; and the reported list contains exactly the required names whose value is
missing. -/
theorem get_connection_params_missing (self : ConfigManager) (env : Env)
    (h : missingParams env ≠ []) :
    self.get_snowflake_connection_params env =
      .error (.valueErrorMissingEnv (missingParams env)) ∧
    ∀ p, p ∈ missingParams env ↔ p ∈ requiredParams ∧ paramMissing env p = true := by
  refine ⟨connection_params_error_of_missing self env h, ?_⟩
  intro p
  simp [missingParams, List.mem_filter]

/-- C3 witness: with all five variables unset the reported list has exactly
the five names. -/
theorem get_connection_params_missing_witness :
    missingParams (fun _ => none) ≠ [] ∧
    (ConfigManager.mk "config.yaml" defaultConfigDoc).get_snowflake_connection_params
        (fun _ => none) =
      .error (.valueErrorMissingEnv
        ["SNOWFLAKE_ACCOUNT", "SNOWFLAKE_USER", "SNOWFLAKE_PASSWORD",
         "SNOWFLAKE_WAREHOUSE", "SNOWFLAKE_ROLE"]) ∧
    (missingParams (fun _ => none)).length = 5 :=
  ⟨by decide,
   (get_connection_params_missing (ConfigManager.mk "config.yaml" defaultConfigDoc)
      (fun _ => none) (by decide)).1.trans rfl,
   by decide⟩

/-- C4: with all five variables set non-empty, the call returns exactly six
entries: the five lower-cased, prefix-stripped keys bound to the environment
values, plus `database` bound to the `name` field of the stored database
section. -/
theorem get_connection_params_success (self : ConfigManager) (env : Env)
    (db : List (String × Value)) (dbName dbSchemas : Value) (a u pw w r : String)
    (hdb : dictLookup self.config "database" = some (.map db))
    (hn : dictLookup db "name" = some dbName)
    (hs : dictLookup db "schemas" = some dbSchemas)
    (ha : env "SNOWFLAKE_ACCOUNT" = some a) (ha2 : a ≠ "")
    (hu : env "SNOWFLAKE_USER" = some u) (hu2 : u ≠ "")
    (hp : env "SNOWFLAKE_PASSWORD" = some pw) (hp2 : pw ≠ "")
    (hw : env "SNOWFLAKE_WAREHOUSE" = some w) (hw2 : w ≠ "")
    (hr : env "SNOWFLAKE_ROLE" = some r) (hr2 : r ≠ "") :
    self.get_snowflake_connection_params env =
      .ok [("account", .str a), ("user", .str u), ("password", .str pw),
           ("warehouse", .str w), ("role", .str r), ("database", dbName)] := by
  have hacc : collectParams env =
      ([("account", .str a), ("user", .str u), ("password", .str pw),
        ("warehouse", .str w), ("role", .str r)], []) := by
    simp [collectParams, requiredParams, collectStep, ha, hu, hp, hw, hr,
      ha2, hu2, hp2, hw2, hr2, connKey_account, connKey_user, connKey_password,
      connKey_warehouse, connKey_role, dictInsert]
  have hdbc : self.get_database_config = .ok ⟨dbName, dbSchemas⟩ := by
    rw [ConfigManager.get_database_config]
    simp [pySubscript, hdb, hn, hs]
  rw [ConfigManager.get_snowflake_connection_params]
  simp only [hacc, hdbc]
  simp [dictInsert]

/-- C4 witness: a concrete environment with five distinct non-empty values
and the default document. -/
theorem get_connection_params_success_witness :
    ((fun q => if q = "SNOWFLAKE_ACCOUNT" then some "acct"
       else if q = "SNOWFLAKE_USER" then some "usr"
       else if q = "SNOWFLAKE_PASSWORD" then some "pwd"
       else if q = "SNOWFLAKE_WAREHOUSE" then some "wh"
       else if q = "SNOWFLAKE_ROLE" then some "rl"
       else none : Env) "SNOWFLAKE_USER" = some "usr") ∧
    (ConfigManager.mk "config.yaml" defaultConfigDoc).get_snowflake_connection_params
      (fun q => if q = "SNOWFLAKE_ACCOUNT" then some "acct"
       else if q = "SNOWFLAKE_USER" then some "usr"
       else if q = "SNOWFLAKE_PASSWORD" then some "pwd"
       else if q = "SNOWFLAKE_WAREHOUSE" then some "wh"
       else if q = "SNOWFLAKE_ROLE" then some "rl"
       else none) =
      .ok [("account", .str "acct"), ("user", .str "usr"), ("password", .str "pwd"),
           ("warehouse", .str "wh"), ("role", .str "rl"),
           ("database", .str "TASTY_BYTES")] :=
  ⟨rfl,
   get_connection_params_success (ConfigManager.mk "config.yaml" defaultConfigDoc) _
     [("name", .str "TASTY_BYTES"),
      ("schemas", .map [("raw", .str "RAW_DATA"), ("harmonized", .str "HARMONIZED"),
        ("analytics", .str "ANALYTICS")])]
     (.str "TASTY_BYTES") _ "acct" "usr" "pwd" "wh" "rl"
     rfl rfl rfl rfl (by decide) rfl (by decide) rfl (by decide) rfl (by decide)
     rfl (by decide)⟩

/-- C10: a required variable set to the empty string behaves exactly like an
absent one: it is reported in the missing list of the raised error, and its
key never appears among the collected connection parameters. -/
theorem empty_env_treated_as_missing (self : ConfigManager) (env : Env) (p : String)
    (hp : p ∈ requiredParams) (he : env p = some "") :
    p ∈ (collectParams env).2 ∧
    connKey p ∉ (collectParams env).1.map Prod.fst ∧
    ∃ ms, self.get_snowflake_connection_params env =
        .error (.valueErrorMissingEnv ms) ∧ p ∈ ms := by
  have hpm : paramMissing env p = true := by simp [paramMissing, he]
  have hmem : p ∈ missingParams env := List.mem_filter.mpr ⟨hp, hpm⟩
  refine ⟨?_, ?_, missingParams env, ?_, hmem⟩
  · rw [collectParams_snd]
    exact hmem
  · rw [collectParams]
    intro hcontra
    rw [collect_foldl_mem_keys] at hcontra
    rcases hcontra with hfalse | ⟨q, hq, hmq, hkq⟩
    · simp at hfalse
    · have hqp : q = p := connKey_inj_on_required q p hq hp hkq
      rw [hqp] at hmq
      rw [hpm] at hmq
      cases hmq
  · exact connection_params_error_of_missing self env (List.ne_nil_of_mem hmem)

/-- C10 witness: `SNOWFLAKE_ACCOUNT` set to the empty string while the other
four variables are set. -/
theorem empty_env_treated_as_missing_witness :
    ("SNOWFLAKE_ACCOUNT" ∈ requiredParams) ∧
    ((fun q => if q = "SNOWFLAKE_ACCOUNT" then some "" else some "x" : Env)
        "SNOWFLAKE_ACCOUNT" = some "") ∧
    ("SNOWFLAKE_ACCOUNT" ∈
        (collectParams (fun q => if q = "SNOWFLAKE_ACCOUNT" then some "" else some "x")).2 ∧
      connKey "SNOWFLAKE_ACCOUNT" ∉
        (collectParams
          (fun q => if q = "SNOWFLAKE_ACCOUNT" then some "" else some "x")).1.map Prod.fst ∧
      ∃ ms, (ConfigManager.mk "config.yaml" defaultConfigDoc).get_snowflake_connection_params
          (fun q => if q = "SNOWFLAKE_ACCOUNT" then some "" else some "x") =
          .error (.valueErrorMissingEnv ms) ∧ "SNOWFLAKE_ACCOUNT" ∈ ms) :=
  ⟨by decide, rfl,
   empty_env_treated_as_missing (ConfigManager.mk "config.yaml" defaultConfigDoc)
     (fun q => if q = "SNOWFLAKE_ACCOUNT" then some "" else some "x")
     "SNOWFLAKE_ACCOUNT" (by decide) rfl⟩

/-- C6: with the pipeline section and its stages mapping in place, looking up
a stage name absent from `pipeline.stages` fails with the key error naming
it, and a present stage whose record carries any field outside the
`PipelineStage` field set fails with a `TypeError` from the strict dataclass
construction (the spec's `SchemaError`). -/
theorem get_pipeline_stage_spec (self : ConfigManager) (pd sd : List (String × Value))
    (stage_name : String)
    (hp : dictLookup self.config "pipeline" = some (.map pd))
    (hs : dictLookup pd "stages" = some (.map sd)) :
    (dictLookup sd stage_name = none →
      self.get_pipeline_stage_config stage_name = .error (.keyError stage_name)) ∧
    (∀ stage_config, dictLookup sd stage_name = some (.map stage_config) →
      (∃ k ∈ stage_config.map Prod.fst, k ∉ recognizedStageFields) →
      ∃ m, self.get_pipeline_stage_config stage_name = .error (.typeError m)) := by
  have hbase : pyDictGet (pyGet self.config "pipeline" (.map [])) "stages" (.map []) =
      .ok (.map sd) := by
    simp [pyGet, pyDictGet, hp, hs]
  constructor
  · intro hnone
    rw [ConfigManager.get_pipeline_stage_config]
    simp only [hbase, hnone]
  · intro stage_config hrec hbad
    rw [ConfigManager.get_pipeline_stage_config]
    simp only [hbase, hrec]
    obtain ⟨k, hk, hkn⟩ := hbad
    have hsome : (stage_config.find? (fun kv => ! recognizedStageFields.contains kv.1)).isSome := by
      rw [List.find?_isSome]
      obtain ⟨kv, hkv, hfst⟩ := List.mem_map.mp hk
      refine ⟨kv, hkv, ?_⟩
      rw [hfst]
      simpa using hkn
    obtain ⟨kv, hfind⟩ := Option.isSome_iff_exists.mp hsome
    obtain ⟨k1, v1⟩ := kv
    rw [mkPipelineStage, hfind]
    exact ⟨k1, rfl⟩

/-- C6 witness: on `docStageExtra`, the stage `missing` is not found and the
`ingestion` record's unknown `foo` field triggers the strict-construction
error. -/
theorem get_pipeline_stage_spec_witness :
    (dictLookup (ConfigManager.mk "config.yaml" docStageExtra).config "pipeline" =
      some (.map stageExtraPipelineSection)) ∧
    (dictLookup stageExtraPipelineSection "stages" =
      some (.map [("ingestion", .map stageExtraRecord)])) ∧
    ((ConfigManager.mk "config.yaml" docStageExtra).get_pipeline_stage_config "missing" =
      .error (.keyError "missing")) ∧
    (∃ m, (ConfigManager.mk "config.yaml" docStageExtra).get_pipeline_stage_config "ingestion" =
      .error (.typeError m)) :=
  ⟨rfl, rfl,
   (get_pipeline_stage_spec (ConfigManager.mk "config.yaml" docStageExtra)
      stageExtraPipelineSection [("ingestion", .map stageExtraRecord)] "missing"
      rfl rfl).1 rfl,
   (get_pipeline_stage_spec (ConfigManager.mk "config.yaml" docStageExtra)
      stageExtraPipelineSection [("ingestion", .map stageExtraRecord)] "ingestion"
      rfl rfl).2 stageExtraRecord rfl ⟨"foo", by decide, by decide⟩⟩

/-- C8: with the data-sources section in place, the lookup fails with the key
error naming the source exactly when the name is absent, and otherwise
returns the stored attribute mapping unchanged. -/
theorem get_data_source_spec (self : ConfigManager) (ds : List (String × Value))
    (source_name : String)
    (h : dictLookup self.config "data_sources" = some (.map ds)) :
    (self.get_data_source_config source_name = .error (.keyError source_name) ↔
      dictLookup ds source_name = none) ∧
    (∀ v, dictLookup ds source_name = some v →
      self.get_data_source_config source_name = .ok v) := by
  have hg : pyGet self.config "data_sources" (.map []) = .map ds := by simp [pyGet, h]
  rw [ConfigManager.get_data_source_config]
  simp only [hg]
  cases hv : dictLookup ds source_name with
  | none => simp
  | some v => simp

/-- C8 witness: on the default document, `missing` fails with the key error
and `weather_data` round-trips its stored attribute mapping. -/
theorem get_data_source_spec_witness :
    (dictLookup (ConfigManager.mk "config.yaml" defaultConfigDoc).config "data_sources" =
      some (.map defaultDataSourcesSection)) ∧
    ((ConfigManager.mk "config.yaml" defaultConfigDoc).get_data_source_config "missing" =
      .error (.keyError "missing")) ∧
    ((ConfigManager.mk "config.yaml" defaultConfigDoc).get_data_source_config "weather_data" =
      .ok (.map
        [("table", .str "weather_hamburg"), ("schema", .str "harmonized"),
         ("refresh_frequency", .str "daily"), ("retention_days", .int 365)])) :=
  ⟨rfl,
   (get_data_source_spec (ConfigManager.mk "config.yaml" defaultConfigDoc)
      defaultDataSourcesSection "missing" rfl).1.mpr rfl,
   (get_data_source_spec (ConfigManager.mk "config.yaml" defaultConfigDoc)
      defaultDataSourcesSection "weather_data" rfl).2 _ rfl⟩

theorem ensureSection_eq_of_mem (config : Doc) (sec : String)
    (hm : dictMem config sec = true) : ensureSection config sec = config := by
  simp [ensureSection, hm]

theorem ensureSection_eq_of_not_mem (config : Doc) (sec : String)
    (hm : dictMem config sec = false) :
    ensureSection config sec = dictInsert config sec (.map []) := by
  simp [ensureSection, hm]

/-- C5: `update_config` creates the section as an empty mapping when absent,
binds the key to the written value inside it, and persists the whole document
to the original path, so that any fresh store constructed from that path
afterwards holds a document whose section maps the key to the written
value. -/
theorem update_config_round_trip (self : ConfigManager) (fs : FS) (sec key : String)
    (value : Value) (d : List (String × Value))
    (hsec : dictLookup self.config sec = some (.map d) ∨
      (dictLookup self.config sec = none ∧ d = [])) :
    ∃ self2 fs2,
      self.update_config fs sec key value = .ok (self2, fs2) ∧
      fs2 self.config_path = some self2.config ∧
      dictLookup self2.config sec = some (.map (dictInsert d key value)) ∧
      dictLookup (dictInsert d key value) key = some value ∧
      (∀ self3, ConfigManager.construct fs2 self.config_path = .ok self3 →
        self3.config = self2.config) := by
  have hlook : dictLookup (ensureSection self.config sec) sec = some (.map d) := by
    rcases hsec with hsome | ⟨hnone, rfl⟩
    · rw [ensureSection_eq_of_mem _ _ ((dictMem_iff_lookup _ _).mpr ⟨_, hsome⟩)]
      exact hsome
    · rw [ensureSection_eq_of_not_mem _ _ ((dictMem_false_iff_lookup _ _).mpr hnone)]
      exact dictLookup_dictInsert_self _ _ _
  rw [ConfigManager.update_config]
  simp only [hlook]
  refine ⟨_, _, rfl, ?_, ?_, ?_, ?_⟩
  · simp
  · exact dictLookup_dictInsert_self _ _ _
  · exact dictLookup_dictInsert_self _ _ _
  · intro self3 hc
    obtain ⟨cfg, hcfg, hcfg2, _⟩ := construct_ok_config _ _ _ hc
    simp only [if_pos rfl] at hcfg
    rw [hcfg2]
    exact (Option.some.inj hcfg).symm

/-- C5 witness: the spec's own example `UpdateConfig("pipeline", "retries",
3)` on the default document. -/
theorem update_config_round_trip_witness :
    (dictLookup (ConfigManager.mk "config.yaml" defaultConfigDoc).config "pipeline" =
        some (.map defaultPipelineSection) ∨
      (dictLookup (ConfigManager.mk "config.yaml" defaultConfigDoc).config "pipeline" = none ∧
        defaultPipelineSection = [])) ∧
    ∃ self2 fs2,
      (ConfigManager.mk "config.yaml" defaultConfigDoc).update_config
          (fun p => if p = "config.yaml" then some defaultConfigDoc else none)
          "pipeline" "retries" (.int 3) = .ok (self2, fs2) ∧
      fs2 (ConfigManager.mk "config.yaml" defaultConfigDoc).config_path = some self2.config ∧
      dictLookup self2.config "pipeline" =
        some (.map (dictInsert defaultPipelineSection "retries" (.int 3))) ∧
      dictLookup (dictInsert defaultPipelineSection "retries" (.int 3)) "retries" =
        some (.int 3) ∧
      (∀ self3, ConfigManager.construct fs2
          (ConfigManager.mk "config.yaml" defaultConfigDoc).config_path = .ok self3 →
        self3.config = self2.config) :=
  ⟨Or.inl rfl,
   update_config_round_trip (ConfigManager.mk "config.yaml" defaultConfigDoc)
     (fun p => if p = "config.yaml" then some defaultConfigDoc else none)
     "pipeline" "retries" (.int 3) defaultPipelineSection (Or.inl rfl)⟩
